import Mathlib

/-!
Verification of the Blinkenlights firmware (animation engine and protocol
front end) against its natural-language specification.

The definitions below are a shallow embedding of the firmware sources:
  * `blink::util::ParseUInt32` and `blink::util::ParseHex` (util.cpp),
  * the `Animatior` ring-buffer pool (animator.h),
  * the command handlers, dispatcher and line reader of the main firmware
    translation unit (`RgbCommand`, `FrameCommand`, `AnimationCommand`,
    `NextCommand`, `PowerCommand`, `CommsUpdate`, ...).
Machine integers are modelled as `Nat` with explicit reduction modulo
`2^32` (uint32_t) or `2^64` (size_t) exactly where the C++ arithmetic can
wrap.  The `Frame` class of frame.h is not present in the sources; it is
modelled from the specification (see the doc comments marked
`Modelled from the spec:`).
-/

namespace Blink

set_option maxRecDepth 100000

/-- LED matrix width (kLedMatrixNumCols = 16). -/
def kWidth : Nat := 16

/-- LED matrix height (kLedMatrixNumLines = 16). -/
def kHeight : Nat := 16

/-- Animation pool capacity: the firmware instantiates `Animatior<32, 16, 16, 16>`. -/
def kMaxAnimations : Nat := 32

/-- Frame pool capacity: the firmware instantiates `Animatior<32, 16, 16, 16>`. -/
def kMaxFrames : Nat := 16

/-- Modulus of C++ `uint32_t` arithmetic. -/
def U32 : Nat := 2 ^ 32

/-- Modulus of C++ `size_t` arithmetic (64-bit). -/
def SZ : Nat := 2 ^ 64

/-- C++ `size_t` subtraction `x - y` (wraps modulo `2^64`). -/
def szSub (x y : Nat) : Nat := (x + SZ - y % SZ) % SZ

/-- C `isdigit` on an ASCII character. -/
def isDigitC (c : Char) : Bool := '0' ≤ c && c ≤ '9'

/-- C `isxdigit` on an ASCII character: `0-9`, `A-F` or `a-f`. -/
def isXdigitC (c : Char) : Bool :=
  isDigitC c || ('A' ≤ c && c ≤ 'F') || ('a' ≤ c && c ≤ 'f')

/-- C `isspace` on an ASCII character. -/
def isSpaceC (c : Char) : Bool :=
  c = ' ' || c = '\t' || c = '\n' || c = '\x0b' || c = '\x0c' || c = '\r'

/-- Accumulator loop of `blink::util::ParseUInt32` (util.cpp): `acc` is the
`uint32_t` accumulator, updated as `acc = acc * 10 + (c - '0')` with wrap. -/
def parseUInt32Aux : List Char → Nat → Option Nat
  | [], acc => some acc
  | c :: rest, acc =>
    if isDigitC c then
      parseUInt32Aux rest ((acc * 10 + (c.toNat - '0'.toNat)) % U32)
    else
      none

/-- Embeds `blink::util::ParseUInt32` (util.cpp): parses a decimal substring into a
`uint32_t`; `none` models returning `false`. -/
def ParseUInt32 (cs : List Char) : Option Nat := parseUInt32Aux cs 0

/-- The nibble value the C++ code computes for one character: `c - '0'` for
digits, `c + 10 - 'A'` for anything passing `isxdigit` (including lowercase,
which yields values 42..47), `none` otherwise. -/
def hexVal (c : Char) : Option Nat :=
  if isDigitC c then some (c.toNat - '0'.toNat)
  else if isXdigitC c then some (c.toNat + 10 - 'A'.toNat)
  else none

/-- Byte-writing loop of `blink::util::ParseHex` (util.cpp).  `pending` is the
byte currently holding a high nibble (`*buf = d << 4` truncated to `uint8_t`);
a second digit is OR-ed into it (`*buf |= d`) and the byte is completed.  The
returned list is the sequence of bytes written to `buf`, including a trailing
half-written byte for odd-length input. -/
def parseHexAux : List Char → Option Nat → Option (List Nat)
  | [], none => some []
  | [], some b => some [b]
  | c :: rest, pending =>
    match hexVal c with
    | none => none
    | some d =>
      match pending with
      | none => parseHexAux rest (some ((d * 16) % 256))
      | some b => (parseHexAux rest none).map (fun bs => (b ||| d) :: bs)

/-- Embeds `blink::util::ParseHex` (util.cpp): `none` models returning `false`. -/
def ParseHex (cs : List Char) : Option (List Nat) := parseHexAux cs none

/-- One step of the decimal accumulator: `a * 10 + (c - '0')`. -/
def pu32step (a : Nat) (c : Char) : Nat := a * 10 + (c.toNat - '0'.toNat)

/-- The decimal value of a digit string (mathematical, no wrap). -/
def decimalValue (cs : List Char) : Nat := cs.foldl pu32step 0

/-- The byte list the specification prescribes for an ASCII-hex string: for
each pair of digits, the byte whose high nibble is the first digit's value
and whose low nibble is the second's. -/
def specHexBytes : List Char → List Nat
  | c1 :: c2 :: rest =>
    ((hexVal c1).getD 0 * 16 + (hexVal c2).getD 0) :: specHexBytes rest
  | _ => []

/-- A character that the specification allows in an RGB/CLC payload:
`0-9` or uppercase `A-F`. -/
def isUpperHexC (c : Char) : Bool := isDigitC c || ('A' ≤ c && c ≤ 'F')

lemma charLe_iff {a b : Char} : a ≤ b ↔ a.toNat ≤ b.toNat := Iff.rfl

lemma foldl_pu32_modeq :
    ∀ (cs : List Char) (x y : Nat), Nat.ModEq U32 x y →
      Nat.ModEq U32 (cs.foldl pu32step x) (cs.foldl pu32step y)
  | [], _, _, h => h
  | _ :: rest, _, _, h =>
    foldl_pu32_modeq rest _ _ ((h.mul_right 10).add_right _)

lemma parseUInt32Aux_digits :
    ∀ (cs : List Char) (acc : Nat), (∀ c ∈ cs, isDigitC c) →
      parseUInt32Aux cs (acc % U32) = some (cs.foldl pu32step acc % U32)
  | [], acc, _ => by simp [parseUInt32Aux]
  | c :: rest, acc, h => by
    have hc : isDigitC c := h c (by simp)
    have hrest : ∀ x ∈ rest, isDigitC x := fun x hx => h x (by simp [hx])
    have e1 : (acc % U32 * 10 + (c.toNat - '0'.toNat)) % U32 =
        pu32step acc c % U32 :=
      ((Nat.mod_modEq acc U32).mul_right 10).add_right _
    have ih := parseUInt32Aux_digits rest (pu32step acc c) hrest
    simp only [parseUInt32Aux, hc, if_pos, List.foldl_cons]
    rw [e1, ih]

lemma hexVal_isSome (c : Char) : (hexVal c).isSome = isXdigitC c := by
  unfold hexVal isXdigitC
  by_cases h1 : isDigitC c = true
  · simp [h1]
  · simp only [Bool.not_eq_true] at h1
    by_cases h2 : (('A' ≤ c && c ≤ 'F') || ('a' ≤ c && c ≤ 'f')) = true
    · have : isXdigitC c = true := by
        unfold isXdigitC; rw [h1]; simpa using h2
      simp only [h1, Bool.false_or, h2]
      unfold isXdigitC at this
      rw [h1] at this; simp at this
      rcases this with h | h <;> simp [h, isXdigitC, h1]
    · simp only [Bool.or_eq_true] at h2
      push_neg at h2
      simp [h1, h2.1, h2.2, isXdigitC]

lemma parseHexAux_isSome_iff :
    ∀ (cs : List Char) (p : Option Nat),
      (parseHexAux cs p).isSome ↔ ∀ c ∈ cs, isXdigitC c
  | [], p => by cases p <;> simp [parseHexAux]
  | c :: rest, p => by
    cases hv : hexVal c with
    | none =>
      have : isXdigitC c = false := by
        have := hexVal_isSome c; rw [hv] at this; simpa using this.symm
      cases p <;> simp [parseHexAux, hv, this]
    | some d =>
      have hx : isXdigitC c = true := by
        have := hexVal_isSome c; rw [hv] at this; simpa using this.symm
      cases p with
      | none =>
        simpa [parseHexAux, hv, hx] using
          parseHexAux_isSome_iff rest (some ((d * 16) % 256))
      | some b =>
        have ih := parseHexAux_isSome_iff rest none
        simp only [parseHexAux, hv]
        constructor
        · intro h
          simp only [List.mem_cons]
          rintro x (rfl | hx')
          · exact hx
          · exact (ih.mp (by
              cases hr : parseHexAux rest none with
              | none => rw [hr] at h; simp at h
              | some _ => simp [hr])) x hx'
        · intro h
          have := ih.mpr (fun x hx' => h x (by simp [hx']))
          cases hr : parseHexAux rest none with
          | none => rw [hr] at this; simp at this
          | some _ => simp [hr]

lemma lor16 : ∀ a b : Fin 16, ((a.val * 16) ||| b.val) = a.val * 16 + b.val := by
  decide

lemma upperHex_val {c : Char} (h : isUpperHexC c = true) :
    ∃ d, hexVal c = some d ∧ d < 16 := by
  unfold isUpperHexC at h
  rw [Bool.or_eq_true] at h
  rcases h with h | h
  · refine ⟨c.toNat - '0'.toNat, ?_, ?_⟩
    · simp [hexVal, h]
    · unfold isDigitC at h
      rw [Bool.and_eq_true, decide_eq_true_iff, decide_eq_true_iff] at h
      have h2 : c.toNat ≤ '9'.toNat := charLe_iff.mp h.2
      have e9 : ('9' : Char).toNat = 57 := by decide
      have e0 : ('0' : Char).toNat = 48 := by decide
      omega
  · rw [Bool.and_eq_true, decide_eq_true_iff, decide_eq_true_iff] at h
    have h1 : ('A' : Char).toNat ≤ c.toNat := charLe_iff.mp h.1
    have h2 : c.toNat ≤ ('F' : Char).toNat := charLe_iff.mp h.2
    have e1 : ('A' : Char).toNat = 65 := by decide
    have e2 : ('F' : Char).toNat = 70 := by decide
    have hd : isDigitC c = false := by
      unfold isDigitC
      have : ('9' : Char).toNat = 57 := by decide
      by_contra hcon
      rw [Bool.not_eq_false, Bool.and_eq_true, decide_eq_true_iff,
        decide_eq_true_iff] at hcon
      have := charLe_iff.mp hcon.2
      omega
    refine ⟨c.toNat + 10 - 'A'.toNat, ?_, ?_⟩
    · have hx : isXdigitC c = true := by
        unfold isXdigitC
        rw [Bool.or_eq_true, Bool.or_eq_true, Bool.and_eq_true]
        exact Or.inl (Or.inr ⟨by simpa using h.1, by simpa using h.2⟩)
      simp [hexVal, hd, hx]
    · omega

lemma parseHexAux_upper :
    ∀ (cs : List Char), (∀ c ∈ cs, isUpperHexC c) → cs.length % 2 = 0 →
      parseHexAux cs none = some (specHexBytes cs)
  | [] => by intro _ _; simp [parseHexAux, specHexBytes]
  | [c] => by intro _ h; simp at h
  | c1 :: c2 :: rest => by
    intro hall hlen
    obtain ⟨d1, hv1, hd1⟩ := upperHex_val (hall c1 (by simp))
    obtain ⟨d2, hv2, hd2⟩ := upperHex_val (hall c2 (by simp))
    have hrest : ∀ c ∈ rest, isUpperHexC c := fun c hc => hall c (by simp [hc])
    have hlen' : rest.length % 2 = 0 := by
      simp only [List.length_cons] at hlen; omega
    have ih := parseHexAux_upper rest hrest hlen'
    have hm : (d1 * 16) % 256 = d1 * 16 := Nat.mod_eq_of_lt (by omega)
    have hlor : (d1 * 16) ||| d2 = d1 * 16 + d2 := lor16 ⟨d1, hd1⟩ ⟨d2, hd2⟩
    simp only [parseHexAux, hv1, hv2, ih, Option.map_some', specHexBytes,
      Option.getD_some, hm, hlor]

/-- C8 counterexample: the claim says `ParseHex` rejects every input that
contains a character outside `0-9A-F` (in particular lowercase `a-f`), and that
on success each byte is `16 * hi + lo` of its two digits.  The code accepts
lowercase (`"aa"` parses successfully), and for `"0a"` it stores 42 instead of
the hexadecimal value 10. -/
theorem parseHex_accepts_lowercase :
    ParseHex ("aa").data ≠ none ∧ ParseHex ("0a").data = some [42] := by
  constructor
  · decide
  · decide

/-- C8 (amended): `ParseHex` succeeds iff every character passes C `isxdigit`
(`0-9`, `A-F` or `a-f`); on an even-length input consisting only of `0-9` and
uppercase `A-F` it stores, for each pair of digits, the byte whose high nibble
is the first digit's value and low nibble the second's. -/
theorem parseHex_success_and_values (cs : List Char) :
    ((ParseHex cs).isSome ↔ ∀ c ∈ cs, isXdigitC c) ∧
    ((∀ c ∈ cs, isUpperHexC c) → cs.length % 2 = 0 →
      ParseHex cs = some (specHexBytes cs)) :=
  ⟨parseHexAux_isSome_iff cs none, fun h1 h2 => parseHexAux_upper cs h1 h2⟩

/-- Witness for C8's amended theorem at the concrete input `"FF00"`. -/
theorem parseHex_success_and_values_witness :
    (∀ c ∈ "FF00".data, isUpperHexC c) ∧ ParseHex ("FF00").data = some [255, 0] := by
  refine ⟨by decide, ?_⟩
  rw [(parseHex_success_and_values ("FF00").data).2 (by decide) (by decide)]
  decide

/-- C10: for every input consisting solely of decimal digits, of any length,
`ParseUInt32` succeeds and stores the numeral's value reduced modulo `2^32`;
overflow is never reported. -/
theorem parseUInt32_digits_wraps (cs : List Char)
    (h : ∀ c ∈ cs, isDigitC c) :
    ParseUInt32 cs = some (decimalValue cs % U32) := by
  have := parseUInt32Aux_digits cs 0 h
  simpa [ParseUInt32, decimalValue] using this

/-- Witness for C10: `"4294967296"` (which is `2^32`) parses as 0. -/
theorem parseUInt32_digits_wraps_witness :
    (∀ c ∈ "4294967296".data, isDigitC c) ∧
      ParseUInt32 ("4294967296").data = some 0 := by
  refine ⟨by decide, ?_⟩
  rw [parseUInt32_digits_wraps ("4294967296").data (by decide)]
  decide

/-- Modelled from the spec: the `Frame` class of frame.h is not in the source
tree (only its callers are).  Per §4.1 a frame holds `W*H*3` pixel bytes, a
load-cursor counting the bytes written since the last rewind, and a duration
in milliseconds. -/
structure Frame where
  pixels : List Nat
  cursor : Nat
  duration : Nat
  deriving Repr, DecidableEq

/-- A zeroed frame (used for default/initial frames and the sentinel). -/
def initFrame : Frame :=
  { pixels := List.replicate (kWidth * kHeight * 3) 0, cursor := 0, duration := 0 }

namespace Frame

/-- Modelled from the spec: `rewind()` sets the load cursor to 0
(called `Rewrite` by animator.h). -/
def Rewrite (f : Frame) : Frame := { f with cursor := 0 }

/-- Modelled from the spec: `is_complete()` is `load_cursor == W*H*3`. -/
def IsDone (f : Frame) : Bool := f.cursor = kWidth * kHeight * 3

/-- Modelled from the spec: the row currently being loaded, published in the
`ACK RGB <row>` reply; the cursor counts bytes and a row is `W*3` bytes. -/
def RowBeingLoaded (f : Frame) : Nat := f.cursor / (kWidth * 3)

/-- Embeds `set_duration(ms)`. -/
def SetDuration (f : Frame) (d : Nat) : Frame := { f with duration := d }

/-- Write `bs` into `ps` starting at byte offset `pos`. -/
def writeBytes (ps : List Nat) (pos : Nat) : List Nat → List Nat
  | [] => ps
  | b :: rest => writeBytes (ps.set pos b) (pos + 1) rest

/-- Modelled from the spec: `load_hex(buffer)` of frame.h.  An `RGB` payload of
length other than `W*6` is rejected (spec B1: NAK RGB ARG); hex digits are
decoded by `blink::util::ParseHex` (util.cpp); on success the parsed bytes are
appended at the load cursor, bounded by the remaining capacity (§4.1). -/
def LoadPartFromAsciiHexBuffer (f : Frame) (s : String) : Option Frame :=
  if s.data.length ≠ kWidth * 6 then none
  else
    match ParseHex s.data with
    | none => none
    | some bs =>
      let room := kWidth * kHeight * 3 - f.cursor
      some { f with pixels := writeBytes f.pixels f.cursor (bs.take room),
                    cursor := f.cursor + min bs.length room }

end Frame

/-- One animation record (struct `Animation` of animator.h). -/
structure Animation where
  being_loaded : Bool
  started : Bool
  frame_start_idx : Nat
  num_frames : Nat
  duration : Nat
  deriving Repr, DecidableEq

/-- Zero-initialised animation slot. -/
def initAnimation : Animation :=
  { being_loaded := false, started := false, frame_start_idx := 0,
    num_frames := 0, duration := 0 }

/-- State of the `Animatior` template class (animator.h): two parallel ring
buffers of frames and animations with `(start, length)` cursors, plus the
player clocks. -/
structure Animator where
  frames : List Frame
  animations : List Animation
  frames_start_idx : Nat
  frames_length : Nat
  animation_start_idx : Nat
  animation_length : Nat
  animation_expiration : Nat
  curr_frame : Nat
  frame_expiration : Nat
  deriving Repr, DecidableEq

/-- Array indexing `frames_[i]` (in-range in every reachable state). -/
def listGetF (l : List Frame) (i : Nat) : Frame := l.getD i initFrame

/-- Array indexing `animations_[i]` (in-range in every reachable state). -/
def listGetA (l : List Animation) (i : Nat) : Animation := l.getD i initAnimation

/-- The freshly constructed `Animatior` (all members value-initialised). -/
def initAnimator : Animator :=
  { frames := List.replicate kMaxFrames initFrame
    animations := List.replicate kMaxAnimations initAnimation
    frames_start_idx := 0, frames_length := 0
    animation_start_idx := 0, animation_length := 0
    animation_expiration := 0, curr_frame := 0, frame_expiration := 0 }

namespace Animator

/-- The `size_t` expression `(animation_start_idx_ + animation_length_ - 1) %
kMaxAnimations` used to address the tail (loading) animation; for
`animation_length_ == 0` the subtraction wraps around `2^64`, so the result is
`kMaxAnimations - 1 = 31` when `animation_start_idx_ == 0`. -/
def loadIdx (a : Animator) : Nat :=
  szSub (a.animation_start_idx + a.animation_length) 1 % kMaxAnimations

/-- Embeds `CanLoadFrame`. -/
def CanLoadFrame (a : Animator) : Bool := a.frames_length < kMaxFrames

/-- Embeds `CanLoadAnimation`. -/
def CanLoadAnimation (a : Animator) : Bool :=
  a.animation_length < kMaxAnimations && a.CanLoadFrame

/-- Embeds `IsLoadingAnimation`. -/
def IsLoadingAnimation (a : Animator) : Bool :=
  if a.animation_length = 0 then false
  else (listGetA a.animations a.loadIdx).being_loaded

/-- Embeds `FinalizeLoadingAnimation`. -/
def FinalizeLoadingAnimation (a : Animator) : Animator :=
  if a.animation_length = 0 then a
  else
    { a with animations :=
        (a.animations.set a.loadIdx
          { listGetA a.animations a.loadIdx with being_loaded := false }) }

/-- Embeds `StartLoadingAnimation`; `none` models returning `false`. -/
def StartLoadingAnimation (a : Animator) (duration_millis : Nat) :
    Option Animator :=
  if ¬a.CanLoadAnimation then none
  else
    let a1 := if a.animation_length > 0 then a.FinalizeLoadingAnimation else a
    let idx := (a1.animation_start_idx + a1.animation_length) % kMaxAnimations
    let frame_idx := (a1.frames_start_idx + a1.frames_length) % kMaxFrames
    some { a1 with
      animations := a1.animations.set idx
        { being_loaded := true, started := false, frame_start_idx := frame_idx,
          num_frames := 0, duration := duration_millis },
      animation_length := a1.animation_length + 1 }

/-- Embeds `GetFrameToLoad`: on success returns the new state together with the index
of the armed frame slot (`*frame_out = &frames_[idx]`).  Note the only guard in
the code is `CanLoadFrame`; the tail animation's `num_frames` is incremented
unconditionally, at index `(animation_start_idx_ + animation_length_ - 1) %
kMaxAnimations` computed in `size_t` arithmetic. -/
def GetFrameToLoad (a : Animator) : Option (Animator × Nat) :=
  if ¬a.CanLoadFrame then none
  else
    let idx := (a.frames_start_idx + a.frames_length) % kMaxFrames
    let a1 := { a with frames_length := a.frames_length + 1,
                       frames := a.frames.set idx (listGetF a.frames idx).Rewrite }
    let aidx := a1.loadIdx
    some ({ a1 with animations :=
        (a1.animations.set aidx
          { listGetA a1.animations aidx with
            num_frames := (listGetA a1.animations aidx).num_frames + 1 }) },
      idx)

/-- Embeds `GetNumFreeFrameSlots`. -/
def GetNumFreeFrameSlots (a : Animator) : Nat := kMaxFrames - a.frames_length

/-- Embeds `GetNumFreeAnimationSlots`. -/
def GetNumFreeAnimationSlots (a : Animator) : Nat :=
  kMaxAnimations - a.animation_length

/-- Embeds `SkipCurrentAnimation`. -/
def SkipCurrentAnimation (a : Animator) : Animator :=
  if a.animation_length < 2 then a
  else
    let nf := (listGetA a.animations a.animation_start_idx).num_frames
    { a with frames_start_idx := (a.frames_start_idx + nf) % kMaxFrames,
             frames_length := szSub a.frames_length nf,
             animation_start_idx := (a.animation_start_idx + 1) % kMaxAnimations,
             animation_length := a.animation_length - 1 }

/-- Embeds `Reset`. -/
def Reset (a : Animator) : Animator :=
  { a with frames_start_idx := 0, frames_length := 0,
           animation_start_idx := 0, animation_length := 0, curr_frame := 0 }

/-- First phase of `GetCurrentFrame`: retire the head animation if it has
started and its expiration time has been reached. -/
def retireExpired (a : Animator) (t : Nat) : Animator :=
  let hd := listGetA a.animations a.animation_start_idx
  if a.animation_length > 0 && hd.started && decide (a.animation_expiration ≤ t) then
    { a with frames_start_idx := (a.frames_start_idx + hd.num_frames) % kMaxFrames,
             frames_length := szSub a.frames_length hd.num_frames,
             animation_start_idx := (a.animation_start_idx + 1) % kMaxAnimations,
             animation_length := a.animation_length - 1 }
  else a

/-- Second phase of `GetCurrentFrame`: the `while` loop discarding fully loaded
frameless head animations.  The loop decrements `animation_length_` each
iteration, so running it with fuel `animation_length_` is exact. -/
def discardFrameless : Nat → Animator → Animator
  | 0, a => a
  | n + 1, a =>
    let hd := listGetA a.animations a.animation_start_idx
    if a.animation_length > 0 && hd.num_frames = 0 && !hd.being_loaded then
      discardFrameless n
        { a with animation_start_idx := (a.animation_start_idx + 1) % kMaxAnimations,
                 animation_length := a.animation_length - 1 }
    else a

/-- Third phase of `GetCurrentFrame`: schedule the head animation if it has not
started yet. -/
def scheduleHead (a : Animator) (t : Nat) : Animator :=
  let hd := listGetA a.animations a.animation_start_idx
  if hd.started then a
  else
    { a with
      animations := a.animations.set a.animation_start_idx { hd with started := true },
      animation_expiration := (t + hd.duration) % U32,
      curr_frame := hd.frame_start_idx,
      frame_expiration := (t + (listGetF a.frames hd.frame_start_idx).duration) % U32 }

/-- Fourth phase of `GetCurrentFrame`: advance the current frame if it has
expired, wrapping from the end of the animation's span back to its
`frame_start_idx`. -/
def advanceFrame (a : Animator) (t : Nat) : Animator :=
  if a.frame_expiration ≤ t then
    let hd := listGetA a.animations a.animation_start_idx
    let c1 := (a.curr_frame + 1) % kMaxFrames
    let e := (hd.frame_start_idx + hd.num_frames) % kMaxFrames
    let c2 := if c1 = e then hd.frame_start_idx else c1
    { a with curr_frame := c2,
             frame_expiration := (t + (listGetF a.frames c2).duration) % U32 }
  else a

/-- Embeds `GetCurrentFrame`: returns the new state and the displayed frame —
`none` for the sentinel frame, `some i` for `frames_[i]`.  `now` is reduced
modulo `2^32`, modelling the `uint32_t curr_time = now_()` narrowing. -/
def GetCurrentFrame (a : Animator) (now : Nat) : Animator × Option Nat :=
  let t := now % U32
  let a1 := retireExpired a t
  let a2 := discardFrameless a1.animation_length a1
  if a2.animation_length = 0 ||
      (listGetA a2.animations a2.animation_start_idx).being_loaded then
    (a2, none)
  else
    let a3 := scheduleHead a2 t
    let a4 := advanceFrame a3 t
    (a4, some a4.curr_frame)

end Animator

/-- The spec's invariant I2 left-hand side: `Σ anim.num_frames` over the live
animations, in ring order from the head. -/
def liveNumFramesSum (a : Animator) : Nat :=
  ((List.range a.animation_length).map (fun i =>
    (listGetA a.animations ((a.animation_start_idx + i) % kMaxAnimations)).num_frames)).sum

/-- The two text byte streams of the transport multiplexer. -/
inductive Chan
  | wired
  | wireless
  deriving Repr, DecidableEq

/-- Device output: the sequence of reply lines, each tagged with the stream it
was written to. -/
abbrev Output := List (Chan × String)

/-- Embeds `enum class UsbCurrentAvailable`. -/
inductive UsbCurrentAvailable
  | kNone
  | k3A
  | k1_5A
  | kUsbStd
  deriving Repr, DecidableEq

/-- The `(uint8_t)` cast of a `UsbCurrentAvailable` value, as stored in the
preferences. -/
def usbCode : UsbCurrentAvailable → Nat
  | .kNone => 0
  | .k3A => 1
  | .k1_5A => 2
  | .kUsbStd => 3

/-- The global state the protocol front end touches: the animator, the
`FrameBeingLoaded` pointer (as an index into the frame ring), the Bluetooth
flag read by `Comm()`, the line buffer, and the settings/preferences mutated
by the configuration commands. -/
structure Device where
  animator : Animator
  frameBeingLoaded : Option Nat
  btActive : Bool
  lineBuf : List Char
  lineTooLong : Bool
  brightness : Nat
  ditherOn : Bool
  fastledCorrection : Nat
  displayRotation : Nat
  displayCleared : Bool
  powerOverride : UsbCurrentAvailable
  currentAvailable : UsbCurrentAvailable
  prefPowerOverride : Option Nat
  prefColorCorrection : Option Nat
  prefMatrixRotation : Option Nat
  deriving Repr, DecidableEq

/-- Embeds `Comm()`: the wireless stream iff Bluetooth is active, else wired Serial. -/
def commChan (btActive : Bool) : Chan :=
  if btActive then Chan.wireless else Chan.wired

/-- The stream `Comm()` currently selects for a device. -/
def chanOf (d : Device) : Chan := commChan d.btActive

/-- Embeds `ReportError`: `NAK <cmd> <err>` on `Comm()`. -/
def ReportError (d : Device) (cmd err : String) : Output :=
  [(chanOf d, "NAK " ++ cmd ++ " " ++ err)]

/-- Embeds `ArgumentError`. -/
def ArgumentError (d : Device) (cmd : String) : Output := ReportError d cmd ("ARG")

/-- A command handler: mutates the device and produces reply lines. -/
abbrev Handler := Device → List String → Device × Output

/-- Embeds `VersionCommand`. -/
def VersionCommand : Handler := fun d ws =>
  let cmd := ws.getD 0 ""
  if ws.length = 1 then (d, [(chanOf d, "ACK " ++ cmd ++ " 1.0")])
  else (d, ArgumentError d cmd)

/-- Embeds `ReportPower`: `ACK <cmd> <current>` on `Comm()`. -/
def ReportPower (d : Device) (cmd : String) (pwr : UsbCurrentAvailable) : Output :=
  [(chanOf d, "ACK " ++ cmd ++
    (match pwr with
     | .kNone => " ???A"
     | .k3A => " 3.0A"
     | .k1_5A => " 1.5A"
     | .kUsbStd => " 0.5A"))]

/-- Embeds `SetPowerOverride`. -/
def SetPowerOverride (d : Device) (c : UsbCurrentAvailable) : Device :=
  { d with powerOverride := c, prefPowerOverride := some (usbCode c) }

/-- Embeds `ResetPowerOverride`. -/
def ResetPowerOverride (d : Device) : Device :=
  { d with prefPowerOverride := none, powerOverride := .kNone }

/-- The fall-through tail of `PowerCommand` after a successful override:
report the effective current belief on `Comm()`. -/
def powerReportTail (d : Device) (cmd : String) : Device × Output :=
  (d, ReportPower d cmd
    (if d.powerOverride = .kNone then d.currentAvailable else d.powerOverride))

/-- Embeds `PowerCommand`.  Note the `RST` arm replies on `Serial` (the wired stream)
directly instead of through `Comm()`. -/
def PowerCommand : Handler := fun d ws =>
  let cmd := ws.getD 0 ""
  if ws.length = 2 then
    let arg := ws.getD 1 ""
    if arg = "RST" then
      (ResetPowerOverride d, [(Chan.wired, "ACK " ++ cmd ++ " RST")])
    else if arg = "3.0A" then powerReportTail (SetPowerOverride d .k3A) cmd
    else if arg = "1.5A" then powerReportTail (SetPowerOverride d .k1_5A) cmd
    else if arg = "0.5A" then powerReportTail (SetPowerOverride d .kUsbStd) cmd
    else (d, ArgumentError d cmd)
  else if ws.length = 1 then powerReportTail d cmd
  else (d, ArgumentError d cmd)

/-- Embeds `QueueCommand` (unimplemented in the firmware: replies `NAK QUE NOP`). -/
def QueueCommand : Handler := fun d ws =>
  let cmd := ws.getD 0 ""
  if ws.length = 1 then (d, [(chanOf d, "NAK " ++ cmd ++ " NOP")])
  else (d, ArgumentError d cmd)

/-- Embeds `FreeCommand`. -/
def FreeCommand : Handler := fun d ws =>
  let cmd := ws.getD 0 ""
  if ws.length = 1 then
    (d, [(chanOf d, "ACK FRE " ++ toString d.animator.GetNumFreeAnimationSlots
      ++ " " ++ toString d.animator.GetNumFreeFrameSlots)])
  else (d, ArgumentError d cmd)

/-- Embeds `NextCommand`. -/
def NextCommand : Handler := fun d ws =>
  let cmd := ws.getD 0 ""
  if ws.length = 1 then
    ({ d with animator := d.animator.SkipCurrentAnimation },
      [(chanOf d, "ACK " ++ cmd)])
  else (d, ArgumentError d cmd)

/-- Arduino `print(bool)` output. -/
def boolNum (b : Bool) : String := if b then "1" else "0"

/-- One line of `Animation::DebugDumpln`. -/
def animationDebugLine (an : Animation) : String :=
  "Animation \x7b " ++ boolNum an.being_loaded ++ ", " ++ boolNum an.started
    ++ ", " ++ toString an.frame_start_idx ++ ", " ++ toString an.num_frames
    ++ ", " ++ toString an.duration ++ " \x7d"

/-- Modelled from the spec: `Frame::DebugDumpln` lives in the missing frame.h;
the spec calls the `DBG` output a free-form diagnostic dump of internal
indices, so the frame line reports the load cursor and duration. -/
def frameDebugLine (f : Frame) : String :=
  "Frame \x7b " ++ toString f.cursor ++ ", " ++ toString f.duration ++ " \x7d"

/-- Embeds `Animatior::DebugDumpln`. -/
def debugDump (d : Device) : Output :=
  let a := d.animator
  let c := chanOf d
  [(c, "Animations: start=" ++ toString a.animation_start_idx
      ++ " len=" ++ toString a.animation_length
      ++ " total=" ++ toString kMaxAnimations),
   (c, "Frames: start=" ++ toString a.frames_start_idx
      ++ " len=" ++ toString a.frames_length
      ++ " total=" ++ toString kMaxFrames
      ++ " current=" ++ toString a.curr_frame)]
  ++ ((List.range kMaxAnimations).map (fun i =>
      (c, toString i ++ " " ++ animationDebugLine (listGetA a.animations i))))
  ++ ((List.range kMaxFrames).map (fun i =>
      (c, toString i ++ " " ++ frameDebugLine (listGetF a.frames i))))

/-- Embeds `DebugCommand`. -/
def DebugCommand : Handler := fun d ws =>
  let cmd := ws.getD 0 ""
  if ws.length = 1 then (d, debugDump d)
  else (d, ArgumentError d cmd)

/-- FastLED's `LEDColorCorrection::Typical8mmPixel`. -/
def Typical8mmPixel : Nat := 0xFFE08C

/-- Embeds `GetColorCorrectionPref`. -/
def GetColorCorrectionPref (d : Device) : Nat :=
  d.prefColorCorrection.getD Typical8mmPixel

/-- Hex digit character, uppercase, as printed by Arduino `print(n, HEX)`. -/
def hexDigitChar (n : Nat) : Char :=
  if n < 10 then Char.ofNat ('0'.toNat + n) else Char.ofNat ('A'.toNat + n - 10)

/-- Digits of Arduino `print(n, HEX)` (no leading zeroes, at least one digit). -/
def natHexAux : Nat → Nat → List Char
  | 0, _ => []
  | fuel + 1, n =>
    if n < 16 then [hexDigitChar n]
    else natHexAux fuel (n / 16) ++ [hexDigitChar (n % 16)]

/-- Arduino `print(n, HEX)`. -/
def natHexStr (n : Nat) : String := String.mk (natHexAux (n + 1) n)

/-- The fall-through tail of `ColorCorrectCommand`: read the preference, apply
it to FastLED, and acknowledge with the three components in hex. -/
def colorCorrectTail (d : Device) (cmd : String) : Device × Output :=
  let c := GetColorCorrectionPref d
  let d1 := { d with fastledCorrection := c }
  (d1, [(chanOf d1, "ACK " ++ cmd ++ " " ++ natHexStr (c / 65536 % 256)
    ++ natHexStr (c / 256 % 256) ++ natHexStr (c % 256))])

/-- Embeds `ColorCorrectCommand`. -/
def ColorCorrectCommand : Handler := fun d ws =>
  let cmd := ws.getD 0 ""
  if ws.length = 2 then
    let arg := ws.getD 1 ""
    if arg = "RST" then
      let d1 := { d with prefColorCorrection := none }
      let d2 := { d1 with fastledCorrection := GetColorCorrectionPref d1 }
      colorCorrectTail d2 cmd
    else
      match ParseHex arg.data with
      | none => (d, ArgumentError d cmd)
      | some bs =>
        let r := bs.getD 0 0
        let g := bs.getD 1 0
        let b := bs.getD 2 0
        colorCorrectTail
          { d with prefColorCorrection := some (r * 65536 + g * 256 + b) } cmd
  else if ws.length = 1 then colorCorrectTail d cmd
  else (d, ArgumentError d cmd)

/-- Embeds `BrightnessCommand`. -/
def BrightnessCommand : Handler := fun d ws =>
  let cmd := ws.getD 0 ""
  if ws.length = 2 then
    match ParseUInt32 (ws.getD 1 "").data with
    | none => (d, ArgumentError d cmd)
    | some b =>
      if b > 255 then (d, ArgumentError d cmd)
      else
        let d1 := { d with brightness := b }
        (d1, [(chanOf d1, "ACK " ++ cmd ++ " " ++ toString d1.brightness)])
  else if ws.length = 1 then
    (d, [(chanOf d, "ACK " ++ cmd ++ " " ++ toString d.brightness)])
  else (d, ArgumentError d cmd)

/-- Embeds `DitherCommand`. -/
def DitherCommand : Handler := fun d ws =>
  let cmd := ws.getD 0 ""
  if ws.length = 2 then
    let arg := ws.getD 1 ""
    if arg = "ON" then
      ({ d with ditherOn := true }, [(chanOf d, "ACK " ++ cmd ++ " " ++ arg)])
    else if arg = "OFF" then
      ({ d with ditherOn := false }, [(chanOf d, "ACK " ++ cmd ++ " " ++ arg)])
    else (d, ArgumentError d cmd)
  else (d, ArgumentError d cmd)

/-- Embeds `ReportRotation` (the C++ `switch` prints no line for an out-of-range
enum value, which cannot arise from the command grammar). -/
def rotationSuffix (rot : Nat) : String :=
  if rot = 0 then " 000"
  else if rot = 1 then " 090"
  else if rot = 2 then " 180"
  else if rot = 3 then " 270"
  else ""

/-- The fall-through tail of `RotateCommand`: read the preference, apply it to
the display, and acknowledge. -/
def rotateTail (d : Device) (cmd : String) : Device × Output :=
  let rot := d.prefMatrixRotation.getD 0
  let d1 := { d with displayRotation := rot }
  (d1, [(chanOf d1, "ACK " ++ cmd ++ rotationSuffix rot)])

/-- Embeds `RotateCommand`. -/
def RotateCommand : Handler := fun d ws =>
  let cmd := ws.getD 0 ""
  if ws.length = 2 then
    let arg := ws.getD 1 ""
    if arg = "000" then rotateTail { d with prefMatrixRotation := some 0 } cmd
    else if arg = "090" then rotateTail { d with prefMatrixRotation := some 1 } cmd
    else if arg = "180" then rotateTail { d with prefMatrixRotation := some 2 } cmd
    else if arg = "270" then rotateTail { d with prefMatrixRotation := some 3 } cmd
    else (d, ArgumentError d cmd)
  else if ws.length = 1 then rotateTail d cmd
  else (d, ArgumentError d cmd)

/-- Embeds `RgbCommand`. -/
def RgbCommand : Handler := fun d ws =>
  let cmd := ws.getD 0 ""
  match d.frameBeingLoaded with
  | none => (d, ReportError d cmd ("NFM"))
  | some i =>
    let fr := listGetF d.animator.frames i
    if fr.IsDone then
      ({ d with frameBeingLoaded := none }, ReportError d cmd ("OFL"))
    else
      let row := fr.RowBeingLoaded
      match fr.LoadPartFromAsciiHexBuffer (ws.getD 1 "") with
      | none => (d, ArgumentError d cmd)
      | some fr1 =>
        let a1 := { d.animator with frames := d.animator.frames.set i fr1 }
        let d1 := { d with animator := a1 }
        let d2 := if fr1.IsDone then { d1 with frameBeingLoaded := none } else d1
        (d2, [(chanOf d, "ACK " ++ cmd ++ " " ++ toString row)])

/-- Embeds `FrameCommand`.  (On `GetFrameToLoad` failure the C++ assigns `nullptr` to
the local copy of the out-parameter, so `FrameBeingLoaded` itself is left
unchanged.) -/
def FrameCommand : Handler := fun d ws =>
  let cmd := ws.getD 0 ""
  match ParseUInt32 (ws.getD 1 "").data with
  | none => (d, ArgumentError d cmd)
  | some dur =>
    match d.animator.GetFrameToLoad with
    | none => (d, ReportError d cmd ("UFL"))
    | some (a1, i) =>
      let fr := (listGetF a1.frames i).SetDuration dur
      ({ d with animator := { a1 with frames := a1.frames.set i fr },
                frameBeingLoaded := some i },
        [(chanOf d, "ACK " ++ cmd ++ " " ++ toString dur)])

/-- Embeds `AnimationCommand`. -/
def AnimationCommand : Handler := fun d ws =>
  let cmd := ws.getD 0 ""
  match ParseUInt32 (ws.getD 1 "").data with
  | none => (d, ArgumentError d cmd)
  | some dur =>
    match d.animator.StartLoadingAnimation dur with
    | none => (d, ReportError d cmd ("UFL"))
    | some a1 =>
      ({ d with animator := a1 }, [(chanOf d, "ACK " ++ cmd ++ " " ++ toString dur)])

/-- Embeds `ResetCommand`. -/
def ResetCommand : Handler := fun d ws =>
  let cmd := ws.getD 0 ""
  if ws.length = 1 then
    ({ d with animator := d.animator.Reset, frameBeingLoaded := none,
              displayCleared := true },
      [(chanOf d, "ACK " ++ cmd)])
  else (d, ArgumentError d cmd)

/-- Embeds `DoneCommand`. -/
def DoneCommand : Handler := fun d ws =>
  let cmd := ws.getD 0 ""
  if ws.length = 1 then
    if !d.animator.IsLoadingAnimation then (d, [(chanOf d, "NAK DON NOA")])
    else
      ({ d with animator := d.animator.FinalizeLoadingAnimation },
        [(chanOf d, "ACK " ++ cmd ++ " ANM")])
  else (d, ArgumentError d cmd)

/-- Embeds `DispatchTable` (sorted by command name, as the binary search requires). -/
def DispatchTable : List (String × Handler) :=
  [("ANM", AnimationCommand), ("CLC", ColorCorrectCommand),
   ("DBG", DebugCommand), ("DIM", BrightnessCommand), ("DON", DoneCommand),
   ("DTH", DitherCommand), ("FRE", FreeCommand), ("FRM", FrameCommand),
   ("NXT", NextCommand), ("PWR", PowerCommand), ("QUE", QueueCommand),
   ("RGB", RgbCommand), ("ROT", RotateCommand), ("RST", ResetCommand),
   ("VER", VersionCommand)]

/-- Embeds `NumCommands`. -/
def NumCommands : Nat := DispatchTable.length

/-- The binary-search loop of `getDispatch`; the interval `[lo, hi)` shrinks
each iteration, so fuel `NumCommands + 1` is ample. -/
def getDispatchAux (cmd : String) : Nat → Nat → Nat → Option Handler
  | 0, _, _ => none
  | fuel + 1, lo, hi =>
    if hi ≤ lo then none
    else
      let mid := (hi + lo) / 2
      let entry := DispatchTable.getD mid ("", fun d _ => (d, []))
      match compare cmd entry.1 with
      | .lt => getDispatchAux cmd fuel lo mid
      | .gt => getDispatchAux cmd fuel (mid + 1) hi
      | .eq => some entry.2

/-- Embeds `getDispatch`: `NULL` (here `none`) unless the command is exactly three
characters and present in the table. -/
def getDispatch (cmd : String) : Option Handler :=
  if cmd.length ≠ 3 then none
  else getDispatchAux cmd (NumCommands + 1) 0 NumCommands

/-- Embeds `ProcessCommand`. -/
def ProcessCommand (d : Device) (ws : List String) : Device × Output :=
  match getDispatch (ws.getD 0 "") with
  | none => (d, [(chanOf d, "NAK CMD")])
  | some h => h d ws

/-- Embeds `COMMAND_MAXLEN`. -/
def COMMAND_MAXLEN : Nat := 100

/-- Embeds `COMMAND_MAXWORDS`. -/
def COMMAND_MAXWORDS : Nat := 4

/-- The tokenising `for` loop of `CommsUpdate`: splits the line buffer into
whitespace-separated words while `wordc <= COMMAND_MAXWORDS`; the boolean is
`*p != 0` at loop exit (text left over, reported as `NAK LIN`).  Each
iteration consumes at least one character, so fuel `length + 1` is exact. -/
def tokenizeAux : Nat → List Char → Nat → List String → List String × Bool
  | 0, cs, _, acc => (acc, !cs.isEmpty)
  | fuel + 1, cs, wordc, acc =>
    if cs.isEmpty || wordc > COMMAND_MAXWORDS then (acc, !cs.isEmpty)
    else
      let cs1 := cs.dropWhile (fun c => isSpaceC c)
      if cs1.isEmpty then (acc, false)
      else
        let w := cs1.takeWhile (fun c => !isSpaceC c)
        let rest := cs1.dropWhile (fun c => !isSpaceC c)
        let rest1 := if rest.isEmpty then rest else rest.tail
        tokenizeAux fuel rest1 (wordc + 1) (acc ++ [String.mk w])

/-- Tokenise a complete line buffer. -/
def tokenize (cs : List Char) : List String × Bool :=
  tokenizeAux (cs.length + 1) cs 0 []

/-- The newline branch of `CommsUpdate` for a non-empty buffer: report `NAK
LTL` if the overflow flag is set, then tokenise and dispatch the (possibly
truncated) buffer — the firmware does NOT discard an overflowed line. -/
def ProcessLine (d : Device) : Device × Output :=
  let chan := chanOf d
  let out1 : Output := if d.lineTooLong then [(chan, "NAK LTL")] else []
  let tk := tokenize d.lineBuf
  if tk.2 then (d, out1 ++ [(chan, "NAK LIN")])
  else
    let r := ProcessCommand d tk.1
    (r.1, out1 ++ r.2)

/-- One iteration of the `CommsUpdate` read loop on one input character. -/
def commsStep (st : Device × Output) (c : Char) : Device × Output :=
  let d := st.1
  let out := st.2
  if c = '\n' then
    if !d.lineBuf.isEmpty then
      let r := ProcessLine d
      ({ r.1 with lineBuf := [], lineTooLong := false }, out ++ r.2)
    else ({ d with lineBuf := [], lineTooLong := false }, out)
  else if d.lineBuf.length < COMMAND_MAXLEN then
    ({ d with lineBuf := d.lineBuf ++ [c] }, out)
  else ({ d with lineTooLong := true }, out)

/-- Embeds `CommsUpdate`, run over a list of available input bytes. -/
def CommsUpdate (d : Device) (input : List Char) : Device × Output :=
  input.foldl commsStep (d, [])

/-- The device state after `setup()`: pools empty, parser disarmed, display
cleared, preferences empty, brightness 15, dithering disabled, no Bluetooth. -/
def initDevice : Device :=
  { animator := initAnimator, frameBeingLoaded := none, btActive := false,
    lineBuf := [], lineTooLong := false, brightness := 15, ditherOn := false,
    fastledCorrection := Typical8mmPixel, displayRotation := 0,
    displayCleared := true, powerOverride := .kNone, currentAvailable := .kNone,
    prefPowerOverride := none, prefColorCorrection := none,
    prefMatrixRotation := none }

/-- Run a sequence of already-tokenised command lines through the dispatcher,
accumulating replies (the per-line behaviour of the main loop's
`CommsUpdate`). -/
def runCommands (d : Device) (lines : List (List String)) : Device × Output :=
  lines.foldl (fun st ws =>
    let r := ProcessCommand st.1 ws
    (r.1, st.2 ++ r.2)) (d, [])

/-- A full 16-pixel RGB row payload: 96 hex digit characters. -/
def zeroRow96 : String := String.mk (List.replicate 96 '0')

/-- Upload transcript: `ANM 1000`, `FRM 10`, then `n` full RGB rows. -/
def uploadRows (n : Nat) : List (List String) :=
  [["ANM", "1000"], ["FRM", "10"]] ++ List.replicate n ["RGB", zeroRow96]

/-- The device after an animation and frame were started and 15 of the 16 rows
of the frame have been loaded. -/
def dev15 : Device := (runCommands initDevice (uploadRows 15)).1

/-- A playing animator: one started two-frame animation occupying frame slots
0 and 1, with the current frame at slot 0, frame expiration at 50 ms and
animation expiration at 1000 ms. -/
def playA : Animator :=
  { initAnimator with
    animations := initAnimator.animations.set 0
      { being_loaded := false, started := true, frame_start_idx := 0,
        num_frames := 2, duration := 1000 },
    frames_length := 2, animation_length := 1,
    animation_expiration := 1000, curr_frame := 0, frame_expiration := 50 }

lemma szSub_eq_sub {x y : Nat} (hy : y ≤ x) (hx : x < SZ) : szSub x y = x - y := by
  unfold szSub
  rw [Nat.mod_eq_of_lt (show y < SZ by omega)]
  have h1 : x + SZ - y = SZ + (x - y) := by omega
  rw [h1, Nat.add_mod_left]
  exact Nat.mod_eq_of_lt (by omega)

lemma specHexBytes_length :
    ∀ cs : List Char, (specHexBytes cs).length = cs.length / 2
  | [] => by simp [specHexBytes]
  | [c] => by simp [specHexBytes]
  | c1 :: c2 :: rest => by
    simp only [specHexBytes, List.length_cons]
    rw [specHexBytes_length rest]
    omega

/-!
## Claim theorems
-/

/-- C1: the claim states invariant I2 (`Σ num_frames over live animations ==
frames_length`) holds after every accepted command, in particular after an
accepted `FRM` with no animation being loaded.  The code violates it: on a
fresh device the single command `FRM 5` is acknowledged (`ACK FRM 5`), yet it
leaves `frames_length = 1` while no animation is live (the `num_frames`
increment lands in dead slot 31 through the `size_t` wrap of
`animation_length_ - 1`), so the live sum is 0 ≠ 1. -/
theorem frm_without_animation_breaks_I2 :
    (FrameCommand initDevice ["FRM", "5"]).2 = [(Chan.wired, "ACK FRM 5")] ∧
    liveNumFramesSum (FrameCommand initDevice ["FRM", "5"]).1.animator = 0 ∧
    (FrameCommand initDevice ["FRM", "5"]).1.animator.frames_length = 1 := by
  refine ⟨?_, ?_, ?_⟩ <;> decide

/-- C2: the claim states `GetFrameToLoad` fails whenever the frame pool is full
or no animation is currently being loaded.  On the freshly constructed animator
no animation is being loaded, yet `GetFrameToLoad` succeeds: it allocates frame
slot 0, bumps `frames_length` to 1, and increments `num_frames` of animation
slot 31 (the `size_t` underflow of `animation_start_idx_ + animation_length_ -
1`), which is not a live slot. -/
theorem getFrameToLoad_ignores_loading_state :
    Animator.IsLoadingAnimation initAnimator = false ∧
    initAnimator.GetFrameToLoad ≠ none ∧
    (initAnimator.GetFrameToLoad.map (fun p =>
      (p.1.frames_length, (listGetA p.1.animations 31).num_frames, p.2)))
      = some (1, 1, 0) := by
  refine ⟨?_, ?_, ?_⟩ <;> decide

/-- C6: the claim states an over-long line is discarded after the `NAK`: one
reply, no handler runs, state unchanged.  Feeding the 101-character line
`"VER" ++ 97 spaces ++ "X"` (and a newline) to a fresh device produces TWO
replies — `NAK LTL` followed by `ACK VER 1.0` — because `CommsUpdate` goes on
to tokenise and dispatch the truncated buffer after reporting the overflow. -/
theorem overlong_line_still_dispatched :
    (CommsUpdate initDevice
      (("VER" ++ String.mk (List.replicate 97 ' ') ++ "X").data ++ ['\n'])).2
      = [(Chan.wired, "NAK LTL"), (Chan.wired, "ACK VER 1.0")] := by
  decide

/-- C9: the claim states every reply, including the reply to `PWR RST`, goes to
the stream selected by `Comm()` (wireless iff Bluetooth is active).  With
Bluetooth active `Comm()` selects the wireless stream, yet the `PWR RST` arm
prints its acknowledgment on the wired `Serial` stream directly. -/
theorem pwr_rst_reply_bypasses_comm :
    commChan true = Chan.wireless ∧
    (PowerCommand { initDevice with btActive := true } ["PWR", "RST"]).2
      = [(Chan.wired, "ACK PWR RST")] := by
  refine ⟨?_, ?_⟩ <;> decide

/-- C3 counterexample: after `ANM 1000`, `FRM 10` and sixteen accepted full
RGB rows (all `ACK`ed), the seventeenth RGB line is answered `NAK RGB NFM`,
not `NAK RGB OFL` as the claim states: completing the sixteenth row disarmed
`FrameBeingLoaded`, so the `NFM` check fires before the `OFL` check can. -/
theorem seventeenth_rgb_is_nfm_not_ofl :
    (runCommands initDevice (uploadRows 17)).2
      = [(Chan.wired, "ACK ANM 1000"), (Chan.wired, "ACK FRM 10"),
         (Chan.wired, "ACK RGB 0"), (Chan.wired, "ACK RGB 1"),
         (Chan.wired, "ACK RGB 2"), (Chan.wired, "ACK RGB 3"),
         (Chan.wired, "ACK RGB 4"), (Chan.wired, "ACK RGB 5"),
         (Chan.wired, "ACK RGB 6"), (Chan.wired, "ACK RGB 7"),
         (Chan.wired, "ACK RGB 8"), (Chan.wired, "ACK RGB 9"),
         (Chan.wired, "ACK RGB 10"), (Chan.wired, "ACK RGB 11"),
         (Chan.wired, "ACK RGB 12"), (Chan.wired, "ACK RGB 13"),
         (Chan.wired, "ACK RGB 14"), (Chan.wired, "ACK RGB 15"),
         (Chan.wired, "NAK RGB NFM")] ∧
    (Chan.wired, "NAK RGB NFM") ≠ (Chan.wired, "NAK RGB OFL") := by
  refine ⟨?_, ?_⟩ <;> decide

/-- C7: `NXT` with at most one live animation leaves the device (pools
included) unchanged and still replies `ACK NXT`; and `SkipCurrentAnimation`
retires the head animation together with its frame span exactly when at least
two animations are live. -/
theorem nxt_single_is_noop (d : Device)
    (h : d.animator.animation_length ≤ 1) :
    NextCommand d ["NXT"] = (d, [(commChan d.btActive, "ACK NXT")]) ∧
    ∀ a : Animator, 2 ≤ a.animation_length →
      (listGetA a.animations a.animation_start_idx).num_frames ≤ a.frames_length →
      a.frames_length < SZ →
      (a.SkipCurrentAnimation.animation_length = a.animation_length - 1 ∧
       a.SkipCurrentAnimation.animation_start_idx =
         (a.animation_start_idx + 1) % kMaxAnimations ∧
       a.SkipCurrentAnimation.frames_start_idx =
         (a.frames_start_idx +
           (listGetA a.animations a.animation_start_idx).num_frames) % kMaxFrames ∧
       a.SkipCurrentAnimation.frames_length =
         a.frames_length -
           (listGetA a.animations a.animation_start_idx).num_frames) := by
  constructor
  · have hskip : d.animator.SkipCurrentAnimation = d.animator := by
      unfold Animator.SkipCurrentAnimation
      rw [if_pos (by omega : d.animator.animation_length < 2)]
    have h1 : NextCommand d ["NXT"] =
        ({ d with animator := d.animator.SkipCurrentAnimation },
          [(commChan d.btActive, "ACK NXT")]) := rfl
    rw [h1, hskip]
  · intro a h2 hnf hsz
    unfold Animator.SkipCurrentAnimation
    rw [if_neg (by omega : ¬a.animation_length < 2)]
    exact ⟨rfl, rfl, rfl, szSub_eq_sub hnf hsz⟩

/-- Witness for C7: a fresh device (no live animation) and a two-animation
pool. -/
theorem nxt_single_is_noop_witness :
    NextCommand initDevice ["NXT"] = (initDevice, [(Chan.wired, "ACK NXT")]) ∧
    ({ initAnimator with animation_length := 2 } :
      Animator).SkipCurrentAnimation.animation_length = 1 := by
  have h := nxt_single_is_noop initDevice (by decide)
  refine ⟨h.1, ?_⟩
  have h2 := h.2 { initAnimator with animation_length := 2 }
    (by decide) (by decide) (by decide)
  rw [h2.1]
  decide

lemma rgb_load_completes_core (d : Device) (i : Nat) (p : String)
    (h1 : d.frameBeingLoaded = some i)
    (h2 : (listGetF d.animator.frames i).IsDone = false)
    (h3 : ((listGetF d.animator.frames i).LoadPartFromAsciiHexBuffer p).map
      Frame.IsDone = some true) :
    (RgbCommand d ["RGB", p]).1.frameBeingLoaded = none ∧
    (RgbCommand d ["RGB", p]).2 =
      [(chanOf d, "ACK RGB " ++
        toString (listGetF d.animator.frames i).RowBeingLoaded)] ∧
    ∀ p2, RgbCommand (RgbCommand d ["RGB", p]).1 ["RGB", p2] =
      ((RgbCommand d ["RGB", p]).1, [(chanOf d, "NAK RGB NFM")]) := by
  cases hload : (listGetF d.animator.frames i).LoadPartFromAsciiHexBuffer p with
  | none => rw [hload] at h3; simp at h3
  | some fr1 =>
    rw [hload] at h3
    simp only [Option.map_some', Option.some.injEq] at h3
    have hr : RgbCommand d ["RGB", p] =
        ({ d with
            animator := { d.animator with frames := d.animator.frames.set i fr1 },
            frameBeingLoaded := none },
          [(chanOf d, "ACK RGB " ++
            toString (listGetF d.animator.frames i).RowBeingLoaded)]) := by
      unfold RgbCommand
      simp only [List.getD, List.get?_cons_succ, List.get?_cons_zero,
        Option.getD_some, h1, h2, hload, h3, Bool.false_eq_true, if_false,
        if_true]
      rfl
    refine ⟨by rw [hr], by rw [hr], fun p2 => by rw [hr]; rfl⟩

/-- C4: when an RGB command completes the frame being loaded, the
`FrameBeingLoaded` cursor is disarmed, the row that was being loaded is
acknowledged, and every subsequent RGB command (until a `FRM` re-arms the
cursor) is rejected with `NAK RGB NFM` while leaving the device — parser and
pool state — exactly unchanged. -/
theorem rgb_complete_disarms_then_nfm (d : Device) (i : Nat) (p : String)
    (h1 : d.frameBeingLoaded = some i)
    (h2 : (listGetF d.animator.frames i).IsDone = false)
    (h3 : ((listGetF d.animator.frames i).LoadPartFromAsciiHexBuffer p).map
      Frame.IsDone = some true) :
    (RgbCommand d ["RGB", p]).1.frameBeingLoaded = none ∧
    (RgbCommand d ["RGB", p]).2 =
      [(chanOf d, "ACK RGB " ++
        toString (listGetF d.animator.frames i).RowBeingLoaded)] ∧
    ∀ p2, RgbCommand (RgbCommand d ["RGB", p]).1 ["RGB", p2] =
      ((RgbCommand d ["RGB", p]).1, [(chanOf d, "NAK RGB NFM")]) :=
  rgb_load_completes_core d i p h1 h2 h3

/-- Witness for C4: on the device with 15 of 16 rows loaded, the sixteenth full
row completes the frame, disarms the cursor, and the next RGB is `NFM`. -/
theorem rgb_complete_disarms_then_nfm_witness :
    (RgbCommand dev15 ["RGB", zeroRow96]).1.frameBeingLoaded = none ∧
    RgbCommand (RgbCommand dev15 ["RGB", zeroRow96]).1 ["RGB", zeroRow96]
      = ((RgbCommand dev15 ["RGB", zeroRow96]).1,
         [(Chan.wired, "NAK RGB NFM")]) := by
  have h := rgb_complete_disarms_then_nfm dev15 0 zeroRow96
    (by decide) (by decide) (by decide)
  exact ⟨h.1, h.2.2 zeroRow96⟩

/-- C3 (amended): with a 16-wide, 16-row frame being loaded, an RGB line whose
hex payload length is not `W*6 = 96` characters is answered `NAK RGB ARG`
(device unchanged); and once the frame's 16 rows are filled the cursor is
disarmed, so a seventeenth RGB line is answered `NAK RGB NFM` (not `OFL`). -/
theorem rgb_bad_length_arg_and_seventeenth_nfm (d : Device) (i : Nat)
    (h1 : d.frameBeingLoaded = some i)
    (h2 : (listGetF d.animator.frames i).IsDone = false) :
    (∀ p : String, p.data.length ≠ 96 →
      RgbCommand d ["RGB", p] = (d, [(chanOf d, "NAK RGB ARG")])) ∧
    (∀ p : String, (listGetF d.animator.frames i).cursor = 720 →
      (∀ c ∈ p.data, isUpperHexC c) → p.data.length = 96 →
      ((RgbCommand d ["RGB", p]).2 = [(chanOf d, "ACK RGB 15")] ∧
       (RgbCommand d ["RGB", p]).1.frameBeingLoaded = none ∧
       ∀ p2, RgbCommand (RgbCommand d ["RGB", p]).1 ["RGB", p2] =
         ((RgbCommand d ["RGB", p]).1, [(chanOf d, "NAK RGB NFM")]))) := by
  constructor
  · intro p hlen
    have hload : (listGetF d.animator.frames i).LoadPartFromAsciiHexBuffer p
        = none := by
      unfold Frame.LoadPartFromAsciiHexBuffer
      rw [if_pos (by simpa [kWidth] using hlen)]
    unfold RgbCommand
    simp only [List.getD, List.get?_cons_succ, List.get?_cons_zero,
      Option.getD_some, h1, h2, hload, Bool.false_eq_true, if_false]
    rfl
  · intro p hcur hupper hlen
    have hph : ParseHex p.data = some (specHexBytes p.data) :=
      parseHexAux_upper p.data hupper (by rw [hlen])
    have hbs : (specHexBytes p.data).length = 48 := by
      rw [specHexBytes_length, hlen]
    have hload : (listGetF d.animator.frames i).LoadPartFromAsciiHexBuffer p
        = some { listGetF d.animator.frames i with
            pixels := Frame.writeBytes (listGetF d.animator.frames i).pixels
              720 ((specHexBytes p.data).take 48),
            cursor := 768 } := by
      unfold Frame.LoadPartFromAsciiHexBuffer
      rw [if_neg (by simp [kWidth, hlen])]
      rw [hph]
      simp only [hcur, hbs, kWidth, kHeight]
      norm_num
    have h3 : ((listGetF d.animator.frames i).LoadPartFromAsciiHexBuffer p).map
        Frame.IsDone = some true := by
      rw [hload]
      simp [Frame.IsDone, kWidth, kHeight]
    have hrow : (listGetF d.animator.frames i).RowBeingLoaded = 15 := by
      unfold Frame.RowBeingLoaded
      rw [hcur]
      norm_num [kWidth]
    have hcore := rgb_load_completes_core d i p h1 h2 h3
    refine ⟨?_, hcore.1, hcore.2.2⟩
    rw [hcore.2.1, hrow]
    rfl

/-- Witness for C3's amended theorem: on the device with 15 of 16 rows loaded,
a 2-character RGB payload is `ARG`, the sixteenth full row acknowledges row 15,
and the seventeenth RGB line is `NFM`. -/
theorem rgb_bad_length_arg_and_seventeenth_nfm_witness :
    RgbCommand dev15 ["RGB", "00"] = (dev15, [(Chan.wired, "NAK RGB ARG")]) ∧
    (RgbCommand dev15 ["RGB", zeroRow96]).2 = [(Chan.wired, "ACK RGB 15")] ∧
    RgbCommand (RgbCommand dev15 ["RGB", zeroRow96]).1 ["RGB", zeroRow96]
      = ((RgbCommand dev15 ["RGB", zeroRow96]).1,
         [(Chan.wired, "NAK RGB NFM")]) := by
  have h := rgb_bad_length_arg_and_seventeenth_nfm dev15 0 (by decide) (by decide)
  have h2 := h.2 zeroRow96 (by decide) (by decide) (by decide)
  exact ⟨h.1 ("00") (by decide), h2.1, h2.2.2 zeroRow96⟩

lemma discardFrameless_frames (fuel : Nat) :
    ∀ a : Animator,
      (Animator.discardFrameless fuel a).frames_start_idx = a.frames_start_idx ∧
      (Animator.discardFrameless fuel a).frames_length = a.frames_length := by
  induction fuel with
  | zero => exact fun a => ⟨rfl, rfl⟩
  | succ n ih =>
    intro a
    unfold Animator.discardFrameless
    dsimp only
    split
    · exact ih _
    · exact ⟨rfl, rfl⟩

lemma discardFrameless_skip (fuel : Nat) (a : Animator)
    (h : (listGetA a.animations a.animation_start_idx).num_frames ≠ 0) :
    Animator.discardFrameless fuel a = a := by
  cases fuel with
  | zero => rfl
  | succ n =>
    unfold Animator.discardFrameless
    rw [if_neg (by simp [h])]

lemma scheduleHead_frames (a : Animator) (t : Nat) :
    (a.scheduleHead t).frames_start_idx = a.frames_start_idx ∧
    (a.scheduleHead t).frames_length = a.frames_length := by
  unfold Animator.scheduleHead
  dsimp only
  split <;> exact ⟨rfl, rfl⟩

lemma advanceFrame_frames (a : Animator) (t : Nat) :
    (a.advanceFrame t).frames_start_idx = a.frames_start_idx ∧
    (a.advanceFrame t).frames_length = a.frames_length := by
  unfold Animator.advanceFrame
  dsimp only
  split <;> exact ⟨rfl, rfl⟩

lemma gcf_frames_cursors (a : Animator) (now : Nat) :
    (a.GetCurrentFrame now).1.frames_start_idx =
      (Animator.retireExpired a (now % U32)).frames_start_idx ∧
    (a.GetCurrentFrame now).1.frames_length =
      (Animator.retireExpired a (now % U32)).frames_length := by
  unfold Animator.GetCurrentFrame
  dsimp only
  set a1 := Animator.retireExpired a (now % U32) with ha1
  have hd2 := discardFrameless_frames a1.animation_length a1
  split
  · exact hd2
  · set a2 := Animator.discardFrameless a1.animation_length a1 with ha2
    have hs := scheduleHead_frames a2 (now % U32)
    have hav := advanceFrame_frames (a2.scheduleHead (now % U32)) (now % U32)
    exact ⟨(hav.1.trans hs.1).trans hd2.1, (hav.2.trans hs.2).trans hd2.2⟩

/-- C5: for a playing (started, non-loading) head animation with at least one
frame, a `GetCurrentFrame` call at a time past the frame expiration (but
before the animation expiration) advances the current frame index cyclically
within the span `[frame_start, frame_start + num_frames)` of the frame ring —
from offset `j` to offset `(j+1) % num_frames` — returns that frame, and sets
the frame expiration to `now` plus the new current frame's duration; while a
call at or past the animation expiration retires the animation's whole frame
span (the frame ring cursors advance past its `num_frames` frames). -/
theorem player_frame_advance_and_expiry (a : Animator) (now j : Nat)
    (hnow : now < U32)
    (hlen : 1 ≤ a.animation_length)
    (hstarted : (listGetA a.animations a.animation_start_idx).started = true)
    (hbl : (listGetA a.animations a.animation_start_idx).being_loaded = false)
    (hnf1 : 1 ≤ (listGetA a.animations a.animation_start_idx).num_frames)
    (hnf16 : (listGetA a.animations a.animation_start_idx).num_frames ≤ kMaxFrames)
    (hfs : (listGetA a.animations a.animation_start_idx).frame_start_idx < kMaxFrames)
    (hcurr : a.curr_frame =
      ((listGetA a.animations a.animation_start_idx).frame_start_idx + j) % kMaxFrames)
    (hj : j < (listGetA a.animations a.animation_start_idx).num_frames) :
    (now < a.animation_expiration → a.frame_expiration ≤ now →
      ((a.GetCurrentFrame now).1.curr_frame =
        ((listGetA a.animations a.animation_start_idx).frame_start_idx +
          (j + 1) % (listGetA a.animations a.animation_start_idx).num_frames) %
          kMaxFrames ∧
       (a.GetCurrentFrame now).2 = some ((a.GetCurrentFrame now).1.curr_frame) ∧
       (a.GetCurrentFrame now).1.frame_expiration =
         (now + (listGetF a.frames
           ((a.GetCurrentFrame now).1.curr_frame)).duration) % U32)) ∧
    (a.animation_expiration ≤ now →
      (listGetA a.animations a.animation_start_idx).num_frames ≤ a.frames_length →
      a.frames_length < SZ →
      ((a.GetCurrentFrame now).1.frames_start_idx =
        (a.frames_start_idx +
          (listGetA a.animations a.animation_start_idx).num_frames) % kMaxFrames ∧
       (a.GetCurrentFrame now).1.frames_length =
         a.frames_length -
           (listGetA a.animations a.animation_start_idx).num_frames)) := by
  have ht : now % U32 = now := Nat.mod_eq_of_lt hnow
  constructor
  · intro hA1 hA2
    have hretire : Animator.retireExpired a now = a := by
      unfold Animator.retireExpired
      rw [if_neg (by simp [show ¬(a.animation_expiration ≤ now) by omega])]
    have hdiscard : Animator.discardFrameless a.animation_length a = a :=
      discardFrameless_skip _ a (by omega)
    have hsched : Animator.scheduleHead a now = a := by
      unfold Animator.scheduleHead
      rw [if_pos hstarted]
    have hadv : Animator.advanceFrame a now =
        { a with
          curr_frame :=
            (if (a.curr_frame + 1) % kMaxFrames =
                ((listGetA a.animations a.animation_start_idx).frame_start_idx +
                  (listGetA a.animations a.animation_start_idx).num_frames) %
                  kMaxFrames then
              (listGetA a.animations a.animation_start_idx).frame_start_idx
            else (a.curr_frame + 1) % kMaxFrames),
          frame_expiration :=
            (now + (listGetF a.frames
              (if (a.curr_frame + 1) % kMaxFrames =
                  ((listGetA a.animations a.animation_start_idx).frame_start_idx +
                    (listGetA a.animations a.animation_start_idx).num_frames) %
                    kMaxFrames then
                (listGetA a.animations a.animation_start_idx).frame_start_idx
              else (a.curr_frame + 1) % kMaxFrames)).duration) % U32 } := by
      unfold Animator.advanceFrame
      rw [if_pos hA2]
    have hgcf : a.GetCurrentFrame now =
        (Animator.advanceFrame a now,
          some (Animator.advanceFrame a now).curr_frame) := by
      unfold Animator.GetCurrentFrame
      dsimp only
      rw [ht, hretire, hdiscard]
      rw [if_neg (by simp [hbl, show ¬(a.animation_length = 0) by omega])]
      rw [hsched]
    rw [hgcf, hadv]
    set nf := (listGetA a.animations a.animation_start_idx).num_frames with hnf
    set fs := (listGetA a.animations a.animation_start_idx).frame_start_idx with hfsd
    by_cases hend : j + 1 = nf
    · have e1 : (a.curr_frame + 1) % kMaxFrames = (fs + nf) % kMaxFrames := by
        rw [hcurr]
        unfold kMaxFrames
        omega
      rw [if_pos e1]
      have e2 : (j + 1) % nf = 0 := by rw [hend, Nat.mod_self]
      rw [e2]
      have e3 : (fs + 0) % kMaxFrames = fs := by
        unfold kMaxFrames at hfs ⊢
        omega
      rw [e3]
      exact ⟨rfl, rfl, rfl⟩
    · have hlt : j + 1 < nf := by omega
      have e1 : ¬((a.curr_frame + 1) % kMaxFrames = (fs + nf) % kMaxFrames) := by
        rw [hcurr]
        unfold kMaxFrames at hnf16 ⊢
        omega
      rw [if_neg e1]
      have e2 : (j + 1) % nf = j + 1 := Nat.mod_eq_of_lt hlt
      rw [e2]
      have e3 : (a.curr_frame + 1) % kMaxFrames = (fs + (j + 1)) % kMaxFrames := by
        rw [hcurr]
        unfold kMaxFrames
        omega
      rw [e3]
      exact ⟨rfl, rfl, rfl⟩
  · intro hB1 hB2 hB3
    have hretire : Animator.retireExpired a now =
        { a with
          frames_start_idx := (a.frames_start_idx +
            (listGetA a.animations a.animation_start_idx).num_frames) % kMaxFrames,
          frames_length := szSub a.frames_length
            (listGetA a.animations a.animation_start_idx).num_frames,
          animation_start_idx := (a.animation_start_idx + 1) % kMaxAnimations,
          animation_length := a.animation_length - 1 } := by
      unfold Animator.retireExpired
      rw [if_pos]
      simp [hstarted, hB1, show 0 < a.animation_length by omega]
    have hc := gcf_frames_cursors a now
    rw [ht, hretire] at hc
    exact ⟨hc.1, hc.2.trans (szSub_eq_sub hB2 hB3)⟩

/-- Witness for C5: at `now = 50` (the frame expiration, before the animation
expiration) the current frame advances from slot 0 to slot 1 and is returned;
at `now = 2000` (past the animation expiration) the two-frame span is
released from the frame ring. -/
theorem player_frame_advance_and_expiry_witness :
    ((playA.GetCurrentFrame 50).1.curr_frame = 1 ∧
     (playA.GetCurrentFrame 50).2 = some 1) ∧
    (playA.GetCurrentFrame 2000).1.frames_length = 0 := by
  have hA := (player_frame_advance_and_expiry playA 50 0 (by decide) (by decide)
    (by decide) (by decide) (by decide) (by decide) (by decide) (by decide)
    (by decide)).1 (by decide) (by decide)
  have hB := (player_frame_advance_and_expiry playA 2000 0 (by decide)
    (by decide) (by decide) (by decide) (by decide) (by decide) (by decide)
    (by decide) (by decide)).2 (by decide) (by decide) (by decide)
  refine ⟨⟨?_, ?_⟩, ?_⟩
  · rw [hA.1]; decide
  · rw [hA.2.1, hA.1]; decide
  · rw [hB.2]; decide

end Blink
